import Mathlib

/-!
Shallow embedding of the credential cache and privileged-command runner of
`octavi-app.py` (Octavi IFR1 Udev Rules Manager, version 0.011).

Modelling conventions:

* Wall-clock time (`time.time()`) is passed explicitly as a `Nat` argument
  `now`; real clock readings are positive, so theorems that depend on a stored
  timestamp being truthy carry a `0 < t` hypothesis.  Python compares
  `time.time() - self.cache_time > ttl` on floats; for `now ≥ t` the `Nat`
  version agrees, and for `now < t` both sides of the comparison are
  non-positive/zero, so `Nat` truncated subtraction gives the same branch.
* The `cryptography.fernet.Fernet` library is modelled abstractly: a
  ciphertext records the key it was produced with and the plaintext, and
  decryption succeeds exactly on the matching key.  Fernet tokens are never
  empty byte strings, so the Python truthiness test `if self.cached_password:`
  coincides with presence (`Option.isSome`) in the model.
* Python truthiness of an optional string (`if cached_password:`) is falsy
  both for `None` and for the empty string; of an optional float timestamp
  (`if not self.cache_time:`) it is falsy for `None` and for `0.0`.  Both are
  modelled exactly (`py_truthy_str`, and the `t = 0` test in `get_password`).
* GUI collaborators are parameters: the password dialog is
  `prompt : Option String` (`none` when the user presses Cancel), process
  execution is `exec : String → ExecOutcome` receiving the exact command
  string the code hands to `subprocess.run(..., shell=True)`, and the
  status-icon callback is recorded as the list of booleans passed to it.
* `re.search(r'DEVPATH=.*0003:([0-9A-Fa-f]\x7b4\x7d):([0-9A-Fa-f]\x7b4\x7d)', s)`
  together with the `udevadm` query is an external collaborator of
  `find_octavi_device`; the query is `query : String → Except String String`
  (`Except.error` is a `subprocess.CalledProcessError`) and the group
  extraction is `devpath_match : String → Option (String × String)`.  No claim
  below depends on the internals of the regular-expression engine.
-/

/-- Substring test helper used to mirror Python's `pat in s`:
does `pat` occur as an initial segment of `s`? -/
def startsWithL (s pat : List Char) : Bool :=
  match pat with
  | [] => true
  | b :: pat2 =>
    match s with
    | [] => false
    | a :: s2 => a == b && startsWithL s2 pat2

/-- Substring containment on character lists, mirroring Python's `pat in s`. -/
def containsSub (s pat : List Char) : Bool :=
  match s with
  | [] => pat.isEmpty
  | _ :: rest => startsWithL s pat || containsSub rest pat

/-- String-level substring containment, mirroring Python's `pat in s`. -/
def strContainsSub (s pat : String) : Bool :=
  containsSub s.data pat.data

/-- Model of Python's `str.lower()`, character by character. -/
def strToLower (s : String) : String :=
  ⟨s.data.map Char.toLower⟩

/-- Model of Python's `str.upper()`, character by character. -/
def strToUpper (s : String) : String :=
  ⟨s.data.map Char.toUpper⟩

/-- Abstract model of a `cryptography.fernet` token: the key that produced it
and the plaintext it protects.  Real Fernet tokens are nonempty byte strings,
so an `Option Ciphertext` is truthy in Python exactly when it is `some`. -/
structure Ciphertext where
  key : Nat
  plaintext : String
deriving DecidableEq

namespace Fernet

/-- Model of `Fernet(key).encrypt(plaintext.encode())`. -/
def encrypt (key : Nat) (plaintext : String) : Ciphertext :=
  ⟨key, plaintext⟩

/-- Model of `Fernet(key).decrypt(token).decode()`: succeeds exactly when the
token was produced under the same key (otherwise Fernet raises). -/
def decrypt (key : Nat) (c : Ciphertext) : Option String :=
  if c.key = key then some c.plaintext else none

end Fernet

/-- Python truthiness of an optional string: `None` and `""` are falsy. -/
def py_truthy_str : Option String → Bool
  | none => false
  | some s => !s.isEmpty

/-- State of `PasswordCache` (`octavi-app.py`, lines 34-67).
`has_status_callback` records whether `set_status_callback` was called
(the application registers `update_root_status` at startup). -/
structure PasswordCache where
  timeout_minutes : Nat
  key : Nat
  cached_password : Option Ciphertext
  cache_time : Option Nat
  has_status_callback : Bool
deriving DecidableEq

/-- `PasswordCache.__init__(timeout_minutes=10)`: fresh key, empty cache.
The default TTL parameter is 10 minutes. -/
def PasswordCache.init (key : Nat) (cb : Bool) : PasswordCache :=
  ⟨10, key, none, none, cb⟩

/-- `PasswordCache.cache_password` (lines 46-50): encrypt under the
process-lifetime key, stamp the current time, notify the observer with
`True`.  Returns the new state and the list of callback invocations. -/
def PasswordCache.cache_password (c : PasswordCache) (password : String)
    (now : Nat) : PasswordCache × List Bool :=
  ({ c with cached_password := some (Fernet.encrypt c.key password),
            cache_time := some now },
   if c.has_status_callback then [true] else [])

/-- `PasswordCache.clear_cache` (lines 63-67): drop ciphertext and timestamp,
notify the observer with `False`. -/
def PasswordCache.clear_cache (c : PasswordCache) : PasswordCache × List Bool :=
  ({ c with cached_password := none, cache_time := none },
   if c.has_status_callback then [false] else [])

/-- Result of `PasswordCache.get_password`: the returned value, the state
after the call, and the callback invocations it performed. -/
structure GetResult where
  password : Option String
  cache : PasswordCache
  notifications : List Bool
deriving DecidableEq

/-- `PasswordCache.get_password` (lines 52-61).  The guard
`if not self.cached_password or not self.cache_time:` is Python truthiness:
a missing ciphertext or a missing (or exactly-zero) timestamp reads as
absent.  An unexpired entry is decrypted and returned; an expired one is
cleared via `clear_cache` (which notifies) and `None` is returned. -/
def PasswordCache.get_password (c : PasswordCache) (now : Nat) : GetResult :=
  match c.cached_password, c.cache_time with
  | some ct, some t =>
    if t = 0 then ⟨none, c, []⟩
    else if c.timeout_minutes * 60 < now - t then
      ⟨none, c.clear_cache.1, c.clear_cache.2⟩
    else ⟨Fernet.decrypt c.key ct, c, []⟩
  | _, _ => ⟨none, c, []⟩

/-- Outcome of `subprocess.run(full_command, shell=True, check=True, ...)`:
a zero exit with captured stdout, or a `CalledProcessError` carrying stderr. -/
inductive ExecOutcome
  | success (stdout : String)
  | failure (stderr : String)
deriving DecidableEq

/-- Observable result of one `run_sudo_command` invocation: final cache
state, observer callback invocations, text written with `setPlainText`,
text handed to the `callback` parameter, the exact string handed to the
process executor (`none` when no command ran), the password embedded in it
(observational, for the security statements), how many times the password
dialog was opened, and whether the user cancelled. -/
structure RunResult where
  cache : PasswordCache
  notifications : List Bool
  output : Option String
  callback_output : Option String
  executed_command : Option String
  password_used : Option String
  prompt_count : Nat
  cancelled : Bool
deriving DecidableEq

/-- Line 388: `full_command = f"echo \x7bpassword\x7d | sudo -S \x7bcommand\x7d"`. -/
def full_command (password command : String) : String :=
  "echo " ++ password ++ " | sudo -S " ++ command

/-- Lines 388-402 of `run_sudo_command`: build the shell string, run it, and
classify the outcome.  On success the callback (when given) receives the
output, otherwise `setPlainText` does; an empty stdout is replaced by a fixed
success message (string truthiness of `result.stdout`).  On failure the error
text is shown and, when stderr contains `"incorrect password"`
case-insensitively, the credential cache is cleared. -/
def exec_sudo (cache : PasswordCache) (notes : List Bool)
    (password command : String) (has_cb : Bool)
    (exec : String → ExecOutcome) (prompt_count : Nat) : RunResult :=
  match exec (full_command password command) with
  | .success out =>
    if has_cb then
      ⟨cache, notes, none,
       some (if out.isEmpty then "Command executed successfully." else out),
       some (full_command password command), some password, prompt_count, false⟩
    else
      ⟨cache, notes,
       some (if out.isEmpty then "Command executed successfully." else out),
       none, some (full_command password command), some password, prompt_count,
       false⟩
  | .failure err =>
    if strContainsSub (strToLower err) "incorrect password" then
      ⟨cache.clear_cache.1, notes ++ cache.clear_cache.2,
       some ("Error executing command: " ++ err), none,
       some (full_command password command), some password, prompt_count,
       false⟩
    else
      ⟨cache, notes, some ("Error executing command: " ++ err), none,
       some (full_command password command), some password, prompt_count,
       false⟩

/-- `UdevRulesApp.run_sudo_command` (lines 372-402).  First consult the
cache (`get_password` may itself expire-and-clear); a truthy cached value is
used directly.  Otherwise, when no `password` argument was passed, open the
dialog: cancellation prints `"Operation cancelled."` and stops; an entered
password is cached before execution.  A non-`None` `password` argument is
used as-is without caching. -/
def run_sudo_command (cache : PasswordCache) (now : Nat) (command : String)
    (password_arg : Option String) (has_cb : Bool)
    (prompt : Option String) (exec : String → ExecOutcome) : RunResult :=
  if py_truthy_str (cache.get_password now).password then
    exec_sudo (cache.get_password now).cache (cache.get_password now).notifications
      ((cache.get_password now).password.getD "") command has_cb exec 0
  else
    match password_arg with
    | none =>
      match prompt with
      | none =>
        ⟨(cache.get_password now).cache, (cache.get_password now).notifications,
         some "Operation cancelled.", none, none, none, 1, true⟩
      | some p =>
        exec_sudo ((cache.get_password now).cache.cache_password p now).1
          ((cache.get_password now).notifications ++
            ((cache.get_password now).cache.cache_password p now).2)
          p command has_cb exec 1
    | some p =>
      exec_sudo (cache.get_password now).cache
        (cache.get_password now).notifications p command has_cb exec 0

/-- Target vendor id of `find_octavi_device` (line 447). -/
def VENDOR_ID : String := "04D8"

/-- Target product id of `find_octavi_device` (line 448). -/
def PRODUCT_ID : String := "E6D6"

/-- Lines 457-474: one device passes the filter when its privileged
`udevadm info` query succeeds (a `CalledProcessError` is skipped with
`continue`), the DEVPATH regular expression finds a vendor/product pair, and
the pair matches the target ids case-insensitively (`.upper()`). -/
def device_matches (query : String → Except String String)
    (devpath_match : String → Option (String × String)) (hidraw : String) : Bool :=
  match query hidraw with
  | .error _ => false
  | .ok info =>
    match devpath_match info with
    | none => false
    | some (v, p) => strToUpper v == VENDOR_ID && strToUpper p == PRODUCT_ID

/-- Observable result of `find_octavi_device`: final cache state, observer
invocations, the matched devices, the devices on which `chmod 0666` was
attempted, the pieces successively appended to `result`, and the final text
(`setPlainText(result)`). -/
structure FindResult where
  cache : PasswordCache
  notifications : List Bool
  found_devices : List String
  chmod_calls : List String
  result_lines : List String
  output : String
deriving DecidableEq

/-- `UdevRulesApp.find_octavi_device` (lines 442-489).  Lines 444-445 cache
the supplied password when `get_password()` is falsy (absent, expired, or the
empty string).  The device loop filters `hidraw_devices` through the
privileged query and the DEVPATH match; `chmod 0666` is then attempted on
every match via a direct `subprocess.run(['sudo','-S','chmod',...])`, each
success or failure appending its own line — one device's failure never stops
the others.  The privileged commands here do NOT go through
`run_sudo_command`, so no outcome of them ever clears the cache. -/
def find_octavi_device (cache : PasswordCache) (now : Nat) (password : String)
    (hidraw_devices : List String) (query : String → Except String String)
    (devpath_match : String → Option (String × String))
    (chmod_ok : String → Bool) : FindResult :=
  let g := cache.get_password now
  let step1 :=
    if py_truthy_str g.password then (g.cache, g.notifications)
    else ((g.cache.cache_password password now).1,
          g.notifications ++ (g.cache.cache_password password now).2)
  let found := hidraw_devices.filter (device_matches query devpath_match)
  let lines :=
    if found.isEmpty then ["No Octavi IFR1 devices found."]
    else
      "Found Octavi IFR1 device(s):\n" ::
        found.flatMap (fun d =>
          [d ++ "\n",
           if chmod_ok d then "Applied chmod 0666 to " ++ d ++ "\n"
           else "Failed to apply chmod 0666 to " ++ d ++ "\n"])
  ⟨step1.1, step1.2, found, found, lines, String.join lines⟩

/-- Observable result of `run_find_octavi_device`: cancellation flag, dialog
invocations, the password handed to the deferred search (observational), the
text shown before the search, the search result (`none` when cancelled),
final cache state and observer invocations. -/
structure FindRunResult where
  cancelled : Bool
  prompt_count : Nat
  password_used : Option String
  pre_output : String
  find : Option FindResult
  cache : PasswordCache
  notifications : List Bool
deriving DecidableEq

/-- `UdevRulesApp.run_find_octavi_device` (lines 491-507).  Same password
acquisition as `run_sudo_command` (no `password` parameter here), then a
single-shot 100 ms timer runs `find_octavi_device(password)`; the deferred
call is composed directly, with its own clock reading `now2`. -/
def run_find_octavi_device (cache : PasswordCache) (now now2 : Nat)
    (prompt : Option String) (hidraw_devices : List String)
    (query : String → Except String String)
    (devpath_match : String → Option (String × String))
    (chmod_ok : String → Bool) : FindRunResult :=
  if py_truthy_str (cache.get_password now).password then
    let fr := find_octavi_device (cache.get_password now).cache now2
      ((cache.get_password now).password.getD "") hidraw_devices query
      devpath_match chmod_ok
    ⟨false, 0, some ((cache.get_password now).password.getD ""),
     "Preparing to search for Octavi IFR1 devices...", some fr, fr.cache,
     (cache.get_password now).notifications ++ fr.notifications⟩
  else
    match prompt with
    | none =>
      ⟨true, 1, none, "Operation cancelled.", none,
       (cache.get_password now).cache, (cache.get_password now).notifications⟩
    | some p =>
      let fr := find_octavi_device
        ((cache.get_password now).cache.cache_password p now).1 now2 p
        hidraw_devices query devpath_match chmod_ok
      ⟨false, 1, some p, "Preparing to search for Octavi IFR1 devices...",
       some fr, fr.cache,
       (cache.get_password now).notifications ++
         ((cache.get_password now).cache.cache_password p now).2 ++
         fr.notifications⟩

/-- The shell command built on line 438 of `create_udev_rule`. -/
def octavi_rule_command : String :=
  "echo \"SUBSYSTEM==\\\"usb\\\", ATTR{idVendor}==\\\"04d8\\\", ATTR{idProduct}==\\\"e6d6\\\", MODE=\\\"0666\\\", GROUP=\\\"plugdev\\\"\" > /etc/udev/rules.d/99-octavi.rules"

/-- Observable result of `create_udev_rule`: the inner `run_sudo_command`
result and the text left in the output pane when the method returns. -/
structure CreateRuleResult where
  run : RunResult
  output : Option String
deriving DecidableEq

/-- `UdevRulesApp.create_udev_rule` (lines 437-440): run the rule-writing
command through `run_sudo_command`, then unconditionally overwrite the output
pane with a fixed success message — also when the command just failed. -/
def create_udev_rule (cache : PasswordCache) (now : Nat)
    (prompt : Option String) (exec : String → ExecOutcome) : CreateRuleResult :=
  let r := run_sudo_command cache now octavi_rule_command none false prompt exec
  ⟨r, some "Udev rule created. Please reload rules and trigger udev for changes to take effect."⟩

/-! ### Helper lemmas -/

theorem string_data_append (s t : String) : (s ++ t).data = s.data ++ t.data :=
  rfl

theorem startsWithL_append (p rest : List Char) :
    startsWithL (p ++ rest) p = true := by
  induction p with
  | nil => simp [startsWithL]
  | cons a as ih => simp [startsWithL, ih]

theorem containsSub_nil_pat (s : List Char) : containsSub s [] = true := by
  cases s <;> simp [containsSub, startsWithL]

theorem containsSub_of_append (pat s : List Char) :
    containsSub (pat ++ s) pat = true := by
  cases pat with
  | nil => simpa using containsSub_nil_pat s
  | cons a as =>
    have h := startsWithL_append (a :: as) s
    rw [List.cons_append] at h
    simp [containsSub, h]

theorem containsSub_append_left (xs s pat : List Char)
    (h : containsSub s pat = true) : containsSub (xs ++ s) pat = true := by
  induction xs with
  | nil => simpa using h
  | cons x xs ih => simp [containsSub, ih]

theorem strContainsSub_full_command (p cmd : String) :
    strContainsSub (full_command p cmd) p = true := by
  have hdata : (full_command p cmd).data =
      "echo ".data ++ (p.data ++ (" | sudo -S " ++ cmd).data) := by
    simp [full_command, string_data_append, List.append_assoc]
  unfold strContainsSub
  rw [hdata]
  exact containsSub_append_left _ _ _
    (by simpa [string_data_append] using
      containsSub_of_append p.data (" | sudo -S " ++ cmd).data)

theorem string_isEmpty_false (s : String) : s.isEmpty = false ↔ s ≠ "" := by
  rw [← Bool.not_eq_true, not_iff_not]
  exact String.isEmpty_iff s

theorem py_truthy_str_some (p : String) (hp : p ≠ "") :
    py_truthy_str (some p) = true := by
  simp [py_truthy_str, (string_isEmpty_false p).mpr hp]

theorem py_truthy_str_iff (o : Option String) :
    py_truthy_str o = true ↔ ∃ p, o = some p ∧ p ≠ "" := by
  cases o with
  | none => simp [py_truthy_str]
  | some s => simp [py_truthy_str, ← string_isEmpty_false]

theorem clear_cache_fst (c : PasswordCache) :
    c.clear_cache.1 = { c with cached_password := none, cache_time := none } :=
  rfl

theorem get_password_of_absent (c : PasswordCache) (now : Nat)
    (h : c.cached_password = none ∨ c.cache_time = none) :
    c.get_password now = ⟨none, c, []⟩ := by
  unfold PasswordCache.get_password
  rcases h with h | h
  · rw [h]
  · rw [h]
    cases c.cached_password <;> rfl

theorem get_password_of_valid (c : PasswordCache) (now : Nat) (ct : Ciphertext)
    (t : Nat) (h1 : c.cached_password = some ct) (h2 : c.cache_time = some t)
    (h3 : 0 < t) (h4 : now - t ≤ c.timeout_minutes * 60) :
    c.get_password now = ⟨Fernet.decrypt c.key ct, c, []⟩ := by
  unfold PasswordCache.get_password
  simp only [h1, h2]
  rw [if_neg (by omega), if_neg (by omega)]

theorem get_password_of_expired (c : PasswordCache) (now : Nat) (ct : Ciphertext)
    (t : Nat) (h1 : c.cached_password = some ct) (h2 : c.cache_time = some t)
    (h3 : 0 < t) (h4 : c.timeout_minutes * 60 < now - t) :
    c.get_password now = ⟨none, c.clear_cache.1, c.clear_cache.2⟩ := by
  unfold PasswordCache.get_password
  simp only [h1, h2]
  rw [if_neg (by omega), if_pos h4]

theorem exec_sudo_executed_command (cache : PasswordCache) (notes : List Bool)
    (p cmd : String) (hcb : Bool) (exec : String → ExecOutcome) (pc : Nat) :
    (exec_sudo cache notes p cmd hcb exec pc).executed_command =
      some (full_command p cmd) := by
  unfold exec_sudo
  cases exec (full_command p cmd) with
  | success out => cases hcb <;> rfl
  | failure err =>
    cases hs : strContainsSub (strToLower err) "incorrect password" <;> simp [hs]

theorem exec_sudo_password_used (cache : PasswordCache) (notes : List Bool)
    (p cmd : String) (hcb : Bool) (exec : String → ExecOutcome) (pc : Nat) :
    (exec_sudo cache notes p cmd hcb exec pc).password_used = some p := by
  unfold exec_sudo
  cases exec (full_command p cmd) with
  | success out => cases hcb <;> rfl
  | failure err =>
    cases hs : strContainsSub (strToLower err) "incorrect password" <;> simp [hs]

theorem exec_sudo_prompt_count (cache : PasswordCache) (notes : List Bool)
    (p cmd : String) (hcb : Bool) (exec : String → ExecOutcome) (pc : Nat) :
    (exec_sudo cache notes p cmd hcb exec pc).prompt_count = pc := by
  unfold exec_sudo
  cases exec (full_command p cmd) with
  | success out => cases hcb <;> rfl
  | failure err =>
    cases hs : strContainsSub (strToLower err) "incorrect password" <;> simp [hs]

theorem exec_sudo_cache_of_auth_failure (cache : PasswordCache)
    (notes : List Bool) (p cmd : String) (hcb : Bool)
    (exec : String → ExecOutcome) (pc : Nat) (err : String)
    (herr : exec (full_command p cmd) = .failure err)
    (hsub : strContainsSub (strToLower err) "incorrect password" = true) :
    (exec_sudo cache notes p cmd hcb exec pc).cache = cache.clear_cache.1 := by
  unfold exec_sudo
  simp only [herr]
  rw [if_pos hsub]

theorem exec_sudo_output_of_failure (cache : PasswordCache)
    (notes : List Bool) (p cmd : String) (hcb : Bool)
    (exec : String → ExecOutcome) (pc : Nat) (err : String)
    (herr : exec (full_command p cmd) = .failure err) :
    (exec_sudo cache notes p cmd hcb exec pc).output =
      some ("Error executing command: " ++ err) := by
  unfold exec_sudo
  simp only [herr]
  cases hs : strContainsSub (strToLower err) "incorrect password" <;> simp [hs]

theorem run_sudo_command_of_valid (cache : PasswordCache) (now : Nat)
    (cmd : String) (parg : Option String) (hcb : Bool) (prompt : Option String)
    (exec : String → ExecOutcome) (p : String)
    (h : (cache.get_password now).password = some p) (hp : p ≠ "") :
    run_sudo_command cache now cmd parg hcb prompt exec =
      exec_sudo (cache.get_password now).cache
        (cache.get_password now).notifications p cmd hcb exec 0 := by
  unfold run_sudo_command
  rw [h, py_truthy_str_some p hp]
  simp

theorem run_sudo_command_cancelled (cache : PasswordCache) (now : Nat)
    (cmd : String) (hcb : Bool) (exec : String → ExecOutcome)
    (h : py_truthy_str (cache.get_password now).password = false) :
    run_sudo_command cache now cmd none hcb none exec =
      ⟨(cache.get_password now).cache, (cache.get_password now).notifications,
       some "Operation cancelled.", none, none, none, 1, true⟩ := by
  unfold run_sudo_command
  rw [h]
  rfl

theorem run_sudo_command_prompted (cache : PasswordCache) (now : Nat)
    (cmd : String) (hcb : Bool) (exec : String → ExecOutcome) (p : String)
    (h : py_truthy_str (cache.get_password now).password = false) :
    run_sudo_command cache now cmd none hcb (some p) exec =
      exec_sudo ((cache.get_password now).cache.cache_password p now).1
        ((cache.get_password now).notifications ++
          ((cache.get_password now).cache.cache_password p now).2)
        p cmd hcb exec 1 := by
  unfold run_sudo_command
  rw [h]
  rfl

theorem run_sudo_command_with_arg (cache : PasswordCache) (now : Nat)
    (cmd : String) (hcb : Bool) (prompt : Option String)
    (exec : String → ExecOutcome) (p : String)
    (h : py_truthy_str (cache.get_password now).password = false) :
    run_sudo_command cache now cmd (some p) hcb prompt exec =
      exec_sudo (cache.get_password now).cache
        (cache.get_password now).notifications p cmd hcb exec 0 := by
  unfold run_sudo_command
  rw [h]
  rfl

/-- Auth-failure consequence at the execution step: if the executed command
failed with a stderr whose lowercase form contains "incorrect password", the
runner's final cache has neither ciphertext nor timestamp. -/
theorem exec_sudo_auth_clears (cache : PasswordCache) (notes : List Bool)
    (p cmd : String) (hcb : Bool) (exec : String → ExecOutcome) (pc : Nat)
    (fc err : String)
    (h1 : (exec_sudo cache notes p cmd hcb exec pc).executed_command = some fc)
    (h2 : exec fc = .failure err)
    (h3 : strContainsSub (strToLower err) "incorrect password" = true) :
    (exec_sudo cache notes p cmd hcb exec pc).cache.cached_password = none ∧
    (exec_sudo cache notes p cmd hcb exec pc).cache.cache_time = none := by
  have hfc : full_command p cmd = fc :=
    Option.some.inj
      ((exec_sudo_executed_command cache notes p cmd hcb exec pc).symm.trans h1)
  have herr : exec (full_command p cmd) = .failure err := by
    rw [hfc]
    exact h2
  have hc := exec_sudo_cache_of_auth_failure cache notes p cmd hcb exec pc err herr h3
  rw [hc, clear_cache_fst]
  exact ⟨rfl, rfl⟩

/-! ### Concrete fixtures for witnesses and counterexamples -/

/-- An application-startup cache: default 10-minute TTL, key 0, observer
registered, nothing stored. -/
def cache0 : PasswordCache := PasswordCache.init 0 true

/-- Process executor that always succeeds with output "ok". -/
def exec0 : String → ExecOutcome := fun _ => ExecOutcome.success "ok"

/-- Process executor that always fails with a non-authentication error. -/
def exec_fail0 : String → ExecOutcome :=
  fun _ => ExecOutcome.failure "chmod: permission denied"

/-- Process executor that always fails with a wrong-password stderr. -/
def exec_auth_fail0 : String → ExecOutcome :=
  fun _ => ExecOutcome.failure "sudo: 1 Incorrect Password attempt"

/-! ### Claim theorems -/

/-- C1: whenever `run_sudo_command` executes a command that exits with
failure and the captured stderr contains "incorrect password" under
case-insensitive comparison, the credential cache is cleared before the call
returns, so a subsequent `get_password` at any time returns absent — also
before the TTL has expired. -/
theorem C1_auth_failure_invalidates_cache (cache : PasswordCache) (now : Nat)
    (cmd : String) (parg : Option String) (hcb : Bool) (prompt : Option String)
    (exec : String → ExecOutcome) (fc err : String) (t2 : Nat)
    (h1 : (run_sudo_command cache now cmd parg hcb prompt exec).executed_command =
      some fc)
    (h2 : exec fc = .failure err)
    (h3 : strContainsSub (strToLower err) "incorrect password" = true) :
    (run_sudo_command cache now cmd parg hcb prompt exec).cache.cached_password =
      none ∧
    (run_sudo_command cache now cmd parg hcb prompt exec).cache.cache_time =
      none ∧
    ((run_sudo_command cache now cmd parg hcb prompt exec).cache.get_password
      t2).password = none := by
  have key : (run_sudo_command cache now cmd parg hcb prompt exec).cache.cached_password = none ∧
      (run_sudo_command cache now cmd parg hcb prompt exec).cache.cache_time = none := by
    cases hty : py_truthy_str (cache.get_password now).password with
    | true =>
      obtain ⟨p, hp, hne⟩ := (py_truthy_str_iff _).mp hty
      rw [run_sudo_command_of_valid cache now cmd parg hcb prompt exec p hp hne] at h1 ⊢
      exact exec_sudo_auth_clears _ _ _ _ _ _ _ _ _ h1 h2 h3
    | false =>
      cases parg with
      | some p =>
        rw [run_sudo_command_with_arg cache now cmd hcb prompt exec p hty] at h1 ⊢
        exact exec_sudo_auth_clears _ _ _ _ _ _ _ _ _ h1 h2 h3
      | none =>
        cases prompt with
        | none =>
          rw [run_sudo_command_cancelled cache now cmd hcb exec hty] at h1
          exact absurd h1 (by simp)
        | some p =>
          rw [run_sudo_command_prompted cache now cmd hcb exec p hty] at h1 ⊢
          exact exec_sudo_auth_clears _ _ _ _ _ _ _ _ _ h1 h2 h3
  refine ⟨key.1, key.2, ?_⟩
  rw [get_password_of_absent _ t2 (Or.inl key.1)]

/-- Witness for C1: empty cache, prompted password "pw", command failing
with a mixed-case wrong-password stderr; the cache ends cleared and a read
one second later (far before the TTL) is absent. -/
theorem C1_auth_failure_invalidates_cache_witness :
    (run_sudo_command cache0 1 "udevadm trigger" none false (some "pw")
      exec_auth_fail0).cache.cached_password = none ∧
    (run_sudo_command cache0 1 "udevadm trigger" none false (some "pw")
      exec_auth_fail0).cache.cache_time = none ∧
    ((run_sudo_command cache0 1 "udevadm trigger" none false (some "pw")
      exec_auth_fail0).cache.get_password 2).password = none :=
  C1_auth_failure_invalidates_cache cache0 1 "udevadm trigger" none false
    (some "pw") exec_auth_fail0 (full_command "pw" "udevadm trigger")
    "sudo: 1 Incorrect Password attempt" 2 (by decide) (by decide) (by decide)

/-- C3: contract of `get_password`: nothing stored gives absent with no
notification; a stored credential older than the TTL is cleared (ciphertext
and timestamp dropped), the observer is notified with `false` exactly once,
and absent is returned; an unexpired credential is decrypted and returned;
the default TTL is 600 seconds. -/
theorem C3_get_password_contract (c : PasswordCache) (now k : Nat) :
    ((c.cached_password = none ∨ c.cache_time = none) →
      c.get_password now = ⟨none, c, []⟩) ∧
    (∀ ct t, c.cached_password = some ct → c.cache_time = some t → 0 < t →
      c.has_status_callback = true →
      ((c.timeout_minutes * 60 < now - t →
         c.get_password now =
           ⟨none, { c with cached_password := none, cache_time := none },
            [false]⟩) ∧
       (now - t ≤ c.timeout_minutes * 60 →
         c.get_password now = ⟨Fernet.decrypt c.key ct, c, []⟩))) ∧
    (PasswordCache.init k true).timeout_minutes * 60 = 600 := by
  refine ⟨get_password_of_absent c now, ?_, rfl⟩
  intro ct t h1 h2 h3 hcb
  constructor
  · intro hexp
    rw [get_password_of_expired c now ct t h1 h2 h3 hexp]
    simp [PasswordCache.clear_cache, hcb]
  · intro hun
    exact get_password_of_valid c now ct t h1 h2 h3 hun

/-- Witness for C3: the empty cache reads absent; a credential cached at
time 1 and read at time 700 (age 699 s > 600 s) is cleared with one `false`
notification; the same credential read at time 600 decrypts back. -/
theorem C3_get_password_contract_witness :
    cache0.get_password 5 = ⟨none, cache0, []⟩ ∧
    (cache0.cache_password "pw" 1).1.get_password 700 =
      ⟨none, { (cache0.cache_password "pw" 1).1 with
               cached_password := none, cache_time := none }, [false]⟩ ∧
    (cache0.cache_password "pw" 1).1.get_password 600 =
      ⟨Fernet.decrypt (cache0.cache_password "pw" 1).1.key
         (Fernet.encrypt cache0.key "pw"), (cache0.cache_password "pw" 1).1,
       []⟩ :=
  ⟨(C3_get_password_contract cache0 5 0).1 (Or.inl rfl),
   (((C3_get_password_contract (cache0.cache_password "pw" 1).1 700 0).2.1
      (Fernet.encrypt cache0.key "pw") 1 rfl rfl (by decide) rfl).1 (by decide)),
   (((C3_get_password_contract (cache0.cache_password "pw" 1).1 600 0).2.1
      (Fernet.encrypt cache0.key "pw") 1 rfl rfl (by decide) rfl).2 (by decide))⟩

/-- C4: encrypt-then-decrypt round trip: for every password `p`, caching `p`
at a (positive) time `t` and reading within the TTL window returns exactly
`p`. -/
theorem C4_cache_round_trip (c : PasswordCache) (p : String) (t now : Nat)
    (h1 : 0 < t) (h2 : now - t ≤ c.timeout_minutes * 60) :
    (((c.cache_password p t).1).get_password now).password = some p := by
  have h := get_password_of_valid (c.cache_password p t).1 now
    (Fernet.encrypt c.key p) t rfl rfl h1
    (by simpa [PasswordCache.cache_password] using h2)
  rw [h]
  simp [Fernet.decrypt, Fernet.encrypt, PasswordCache.cache_password]

/-- Witness for C4: password "hunter2" cached at time 1 and read at time 601
(age exactly the TTL) comes back unchanged. -/
theorem C4_cache_round_trip_witness :
    (((cache0.cache_password "hunter2" 1).1).get_password 601).password =
      some "hunter2" :=
  C4_cache_round_trip cache0 "hunter2" 1 601 (by decide) (by decide)

/-- Presence invariant of the cache state: ciphertext stored iff timestamp
stored. -/
def cache_invariant (c : PasswordCache) : Prop :=
  c.cached_password.isSome = c.cache_time.isSome

/-- C9: the presence invariant (ciphertext iff timestamp) is preserved by
`cache_password`, `clear_cache` and `get_password`; and whenever the stored
timestamp is older than the TTL, `get_password` returns absent regardless of
the stored bytes. -/
theorem C9_cache_state_invariant (c : PasswordCache) (p : String) (t now : Nat)
    (hinv : cache_invariant c) :
    (cache_invariant (c.cache_password p t).1 ∧
     cache_invariant c.clear_cache.1 ∧
     cache_invariant (c.get_password now).cache) ∧
    (∀ t2, c.cache_time = some t2 → c.timeout_minutes * 60 < now - t2 →
      (c.get_password now).password = none) := by
  constructor
  · refine ⟨rfl, rfl, ?_⟩
    cases hc : c.cached_password with
    | none =>
      rw [get_password_of_absent c now (Or.inl hc)]
      exact hinv
    | some ct =>
      cases htm : c.cache_time with
      | none =>
        rw [get_password_of_absent c now (Or.inr htm)]
        exact hinv
      | some t2 =>
        by_cases h0 : t2 = 0
        · have hz : c.get_password now = ⟨none, c, []⟩ := by
            unfold PasswordCache.get_password
            simp only [hc, htm]
            rw [if_pos h0]
          rw [hz]
          exact hinv
        · by_cases hexp : c.timeout_minutes * 60 < now - t2
          · rw [get_password_of_expired c now ct t2 hc htm
              (Nat.pos_of_ne_zero h0) hexp]
            rfl
          · rw [get_password_of_valid c now ct t2 hc htm
              (Nat.pos_of_ne_zero h0) (Nat.le_of_not_lt hexp)]
            exact hinv
  · intro t2 h1 h2
    cases hc : c.cached_password with
    | none => rw [get_password_of_absent c now (Or.inl hc)]
    | some ct =>
      by_cases h0 : t2 = 0
      · have hz : c.get_password now = ⟨none, c, []⟩ := by
          unfold PasswordCache.get_password
          simp only [hc, h1]
          rw [if_pos h0]
        rw [hz]
      · rw [get_password_of_expired c now ct t2 hc h1
          (Nat.pos_of_ne_zero h0) h2]

/-- Witness for C9: the invariant holds after caching on top of a cached
state, and an expired read (time 700, cached at 1) is absent. -/
theorem C9_cache_state_invariant_witness :
    cache_invariant ((cache0.cache_password "pw" 1).1.cache_password "pw2" 2).1 ∧
    ((cache0.cache_password "pw" 1).1.get_password 700).password = none :=
  ⟨((C9_cache_state_invariant (cache0.cache_password "pw" 1).1 "pw2" 2 700
      rfl).1).1,
   (C9_cache_state_invariant (cache0.cache_password "pw" 1).1 "pw2" 2 700
      rfl).2 1 rfl (by decide)⟩

/-- When the execution step both reports an executed command string and a
password used, the string is exactly the `echo`-pipe wrapper around that
password. -/
theorem exec_sudo_fc_eq (cache : PasswordCache) (notes : List Bool)
    (q cmd : String) (hcb : Bool) (exec : String → ExecOutcome) (pc : Nat)
    (fc p : String)
    (h1 : (exec_sudo cache notes q cmd hcb exec pc).executed_command = some fc)
    (h2 : (exec_sudo cache notes q cmd hcb exec pc).password_used = some p) :
    fc = full_command p cmd := by
  have hfc : full_command q cmd = fc :=
    Option.some.inj
      ((exec_sudo_executed_command cache notes q cmd hcb exec pc).symm.trans h1)
  have hp : q = p :=
    Option.some.inj
      ((exec_sudo_password_used cache notes q cmd hcb exec pc).symm.trans h2)
  rw [← hfc, ← hp]

/-- Counterexample to C2 as stated: with an empty cache and prompted
password "hunter2", the command string handed to the process-execution
collaborator is `echo hunter2 | sudo -S udevadm trigger` — it contains the
password. -/
theorem C2_password_in_argument_counterexample :
    (run_sudo_command cache0 1 "udevadm trigger" none false (some "hunter2")
      exec0).executed_command =
      some "echo hunter2 | sudo -S udevadm trigger" ∧
    strContainsSub "echo hunter2 | sudo -S udevadm trigger" "hunter2" = true :=
  ⟨by decide, by decide⟩

/-- C2 (amended): whenever `run_sudo_command` hands a command string to the
process executor, that string is exactly
`echo <password> | sudo -S <command>`: the password reaches sudo on its
stdin through the shell pipe (sudo's `-S` non-echoing channel), but the
command string passed to the process-execution collaborator contains the
password in clear text. -/
theorem C2_password_piped_but_in_command_string (cache : PasswordCache)
    (now : Nat) (cmd : String) (parg : Option String) (hcb : Bool)
    (prompt : Option String) (exec : String → ExecOutcome) (fc p : String)
    (h1 : (run_sudo_command cache now cmd parg hcb prompt exec).executed_command =
      some fc)
    (h2 : (run_sudo_command cache now cmd parg hcb prompt exec).password_used =
      some p) :
    fc = full_command p cmd ∧ strContainsSub fc p = true := by
  have key : fc = full_command p cmd := by
    cases hty : py_truthy_str (cache.get_password now).password with
    | true =>
      obtain ⟨q, hq, hne⟩ := (py_truthy_str_iff _).mp hty
      rw [run_sudo_command_of_valid cache now cmd parg hcb prompt exec q hq hne]
        at h1 h2
      exact exec_sudo_fc_eq _ _ _ _ _ _ _ _ _ h1 h2
    | false =>
      cases parg with
      | some q =>
        rw [run_sudo_command_with_arg cache now cmd hcb prompt exec q hty]
          at h1 h2
        exact exec_sudo_fc_eq _ _ _ _ _ _ _ _ _ h1 h2
      | none =>
        cases prompt with
        | none =>
          rw [run_sudo_command_cancelled cache now cmd hcb exec hty] at h1
          exact absurd h1 (by simp)
        | some q =>
          rw [run_sudo_command_prompted cache now cmd hcb exec q hty] at h1 h2
          exact exec_sudo_fc_eq _ _ _ _ _ _ _ _ _ h1 h2
  refine ⟨key, ?_⟩
  rw [key]
  exact strContainsSub_full_command p cmd

/-- Witness for the amended C2 at a prompted password "pw" and the command
"udevadm trigger". -/
theorem C2_password_piped_but_in_command_string_witness :
    full_command "pw" "udevadm trigger" = full_command "pw" "udevadm trigger" ∧
    strContainsSub (full_command "pw" "udevadm trigger") "pw" = true :=
  C2_password_piped_but_in_command_string cache0 1 "udevadm trigger" none
    false (some "pw") exec0 (full_command "pw" "udevadm trigger") "pw"
    (by decide) (by decide)

/-- Counterexample to C5 as stated: after caching the empty password (the
dialog returned "" with OK), the credential is present and unexpired at the
second call, yet the second call opens the dialog again — Python's
`if cached_password:` treats the returned empty string as absent. -/
theorem C5_empty_password_reprompt_counterexample :
    (run_sudo_command cache0 1 "dmesg" none false (some "")
      exec0).cache.cached_password.isSome = true ∧
    (run_sudo_command cache0 1 "dmesg" none false (some "")
      exec0).cache.cache_time = some 1 ∧
    2 - 1 ≤ (run_sudo_command cache0 1 "dmesg" none false (some "")
      exec0).cache.timeout_minutes * 60 ∧
    (run_sudo_command
      (run_sudo_command cache0 1 "dmesg" none false (some "") exec0).cache
      2 "dmesg" none false (some "x") exec0).prompt_count = 1 :=
  ⟨by decide, by decide, by decide, by decide⟩

/-- C5 (amended): for two consecutive `run_sudo_command` invocations, if
after the first the cached credential is present, unexpired at the second
call's time, and decrypts to a nonempty password, then the second invocation
opens the password dialog zero times — the cached password is reused.  (A
cached empty password is treated as absent by the runner's truthiness test
and does re-prompt.) -/
theorem C5_no_reprompt_while_valid (cache : PasswordCache) (now1 now2 : Nat)
    (cmd1 cmd2 : String) (hcb1 hcb2 : Bool) (prompt1 prompt2 : Option String)
    (exec1 exec2 : String → ExecOutcome) (ct : Ciphertext) (t : Nat)
    (p : String)
    (h1 : (run_sudo_command cache now1 cmd1 none hcb1 prompt1
      exec1).cache.cached_password = some ct)
    (h2 : (run_sudo_command cache now1 cmd1 none hcb1 prompt1
      exec1).cache.cache_time = some t)
    (h3 : 0 < t)
    (h4 : now2 - t ≤ (run_sudo_command cache now1 cmd1 none hcb1 prompt1
      exec1).cache.timeout_minutes * 60)
    (h5 : Fernet.decrypt (run_sudo_command cache now1 cmd1 none hcb1 prompt1
      exec1).cache.key ct = some p)
    (h6 : p ≠ "") :
    (run_sudo_command
      (run_sudo_command cache now1 cmd1 none hcb1 prompt1 exec1).cache
      now2 cmd2 none hcb2 prompt2 exec2).prompt_count = 0 := by
  have hget := get_password_of_valid
    (run_sudo_command cache now1 cmd1 none hcb1 prompt1 exec1).cache
    now2 ct t h1 h2 h3 h4
  have hpw : ((run_sudo_command cache now1 cmd1 none hcb1 prompt1
      exec1).cache.get_password now2).password = some p := by
    rw [hget]
    exact h5
  rw [run_sudo_command_of_valid _ now2 cmd2 none hcb2 prompt2 exec2 p hpw h6]
  exact exec_sudo_prompt_count _ _ _ _ _ _ _

/-- Witness for the amended C5: first call caches "pw" at time 1; the second
call at time 2 re-uses it without opening the dialog. -/
theorem C5_no_reprompt_while_valid_witness :
    (run_sudo_command
      (run_sudo_command cache0 1 "udevadm trigger" none false (some "pw")
        exec0).cache
      2 "udevadm trigger" none false (some "x") exec0).prompt_count = 0 :=
  C5_no_reprompt_while_valid cache0 1 2 "udevadm trigger" "udevadm trigger"
    false false (some "pw") (some "x") exec0 exec0 ⟨0, "pw"⟩ 1 "pw"
    (by decide) (by decide) (by decide) (by decide) (by decide) (by decide)

/-- C6: with an empty cache and a cancelled password dialog, both
`run_sudo_command` and `run_find_octavi_device` report a cancellation
outcome ("Operation cancelled.", not an error), execute no command, and are
a no-op on the credential cache: nothing is cached, nothing is cleared, no
notification fires. -/
theorem C6_cancellation_is_no_op (cache : PasswordCache) (now now2 : Nat)
    (cmd : String) (hcb : Bool) (exec : String → ExecOutcome)
    (devices : List String) (query : String → Except String String)
    (dm : String → Option (String × String)) (chmod_ok : String → Bool)
    (h : cache.cached_password = none) :
    run_sudo_command cache now cmd none hcb none exec =
      ⟨cache, [], some "Operation cancelled.", none, none, none, 1, true⟩ ∧
    run_find_octavi_device cache now now2 none devices query dm chmod_ok =
      ⟨true, 1, none, "Operation cancelled.", none, cache, []⟩ := by
  have hget := get_password_of_absent cache now (Or.inl h)
  have hty : py_truthy_str (cache.get_password now).password = false := by
    rw [hget]
    rfl
  constructor
  · rw [run_sudo_command_cancelled cache now cmd hcb exec hty, hget]
  · unfold run_find_octavi_device
    simp [hty, hget, py_truthy_str]

/-- Witness for C6: the startup cache with a cancelled dialog at time 1. -/
theorem C6_cancellation_is_no_op_witness :
    run_sudo_command cache0 1 "dmesg" none false none exec0 =
      ⟨cache0, [], some "Operation cancelled.", none, none, none, 1, true⟩ ∧
    run_find_octavi_device cache0 1 2 none ["/dev/hidraw0"]
      (fun _ => Except.error "boom") (fun _ => none) (fun _ => false) =
      ⟨true, 1, none, "Operation cancelled.", none, cache0, []⟩ :=
  C6_cancellation_is_no_op cache0 1 2 "dmesg" false exec0 ["/dev/hidraw0"]
    (fun _ => Except.error "boom") (fun _ => none) (fun _ => false) rfl

/-- Failure output of the execution step, phrased through the reported
executed command. -/
theorem exec_sudo_output_err (cache : PasswordCache) (notes : List Bool)
    (q cmd : String) (hcb : Bool) (exec : String → ExecOutcome) (pc : Nat)
    (fc err : String)
    (h1 : (exec_sudo cache notes q cmd hcb exec pc).executed_command = some fc)
    (h2 : exec fc = .failure err) :
    (exec_sudo cache notes q cmd hcb exec pc).output =
      some ("Error executing command: " ++ err) := by
  have hfc : full_command q cmd = fc :=
    Option.some.inj
      ((exec_sudo_executed_command cache notes q cmd hcb exec pc).symm.trans h1)
  refine exec_sudo_output_of_failure cache notes q cmd hcb exec pc err ?_
  rw [hfc]
  exact h2

/-- When every privileged `udevadm info` query fails (for example because
the piped password is wrong), no device passes the filter. -/
theorem filter_matches_nil (devices : List String)
    (query : String → Except String String)
    (dm : String → Option (String × String))
    (hq : ∀ d ∈ devices, ∃ e, query d = Except.error e) :
    devices.filter (device_matches query dm) = [] := by
  refine List.filter_eq_nil_iff.mpr ?_
  intro d hd
  obtain ⟨e, he⟩ := hq d hd
  simp [device_matches, he]

/-- Final pane text of `find_octavi_device` when nothing matched. -/
theorem find_octavi_device_output_none (cache : PasswordCache) (now : Nat)
    (pw : String) (devices : List String)
    (query : String → Except String String)
    (dm : String → Option (String × String)) (chmod_ok : String → Bool)
    (hfound : devices.filter (device_matches query dm) = []) :
    (find_octavi_device cache now pw devices query dm chmod_ok).output =
      "No Octavi IFR1 devices found." := by
  unfold find_octavi_device
  simp [hfound, String.join]

set_option maxRecDepth 4096 in
/-- Counterexample to C7 as stated: with an empty cache, prompted password
"pw" and a failing rule-writing command, `create_udev_rule` executes the
command, the command fails, the error text is written — and then the pane is
overwritten with the fixed success message, so the user-visible output shows
success. -/
theorem C7_create_rule_masks_failure_counterexample :
    (create_udev_rule cache0 1 (some "pw") exec_fail0).run.executed_command =
      some (full_command "pw" octavi_rule_command) ∧
    exec_fail0 (full_command "pw" octavi_rule_command) =
      ExecOutcome.failure "chmod: permission denied" ∧
    (create_udev_rule cache0 1 (some "pw") exec_fail0).run.output =
      some ("Error executing command: " ++ "chmod: permission denied") ∧
    (create_udev_rule cache0 1 (some "pw") exec_fail0).output =
      some "Udev rule created. Please reload rules and trigger udev for changes to take effect." :=
  ⟨by decide, by decide, by decide, by decide⟩

/-- C7 (amended): `run_sudo_command` itself surfaces every failed command's
stderr as "Error executing command: <stderr>"; but `create_udev_rule`
unconditionally overwrites the pane with a fixed success message, so a
rule-creation failure is not visible, and `find_octavi_device` silently
skips every device whose privileged query fails, reporting only that no
devices were found. -/
theorem C7_failures_surfaced_except_masked (cache : PasswordCache) (now : Nat)
    (cmd : String) (parg : Option String) (hcb : Bool) (prompt : Option String)
    (exec : String → ExecOutcome) (fc err pw : String) (devices : List String)
    (query : String → Except String String)
    (dm : String → Option (String × String)) (chmod_ok : String → Bool)
    (h1 : (run_sudo_command cache now cmd parg hcb prompt exec).executed_command =
      some fc)
    (h2 : exec fc = .failure err)
    (hq : ∀ d ∈ devices, ∃ e, query d = Except.error e) :
    (run_sudo_command cache now cmd parg hcb prompt exec).output =
      some ("Error executing command: " ++ err) ∧
    (create_udev_rule cache now prompt exec).output =
      some "Udev rule created. Please reload rules and trigger udev for changes to take effect." ∧
    (find_octavi_device cache now pw devices query dm chmod_ok).output =
      "No Octavi IFR1 devices found." := by
  refine ⟨?_, rfl, find_octavi_device_output_none cache now pw devices query dm
    chmod_ok (filter_matches_nil devices query dm hq)⟩
  cases hty : py_truthy_str (cache.get_password now).password with
  | true =>
    obtain ⟨q, hq2, hne⟩ := (py_truthy_str_iff _).mp hty
    rw [run_sudo_command_of_valid cache now cmd parg hcb prompt exec q hq2 hne]
      at h1 ⊢
    exact exec_sudo_output_err _ _ _ _ _ _ _ _ _ h1 h2
  | false =>
    cases parg with
    | some q =>
      rw [run_sudo_command_with_arg cache now cmd hcb prompt exec q hty] at h1 ⊢
      exact exec_sudo_output_err _ _ _ _ _ _ _ _ _ h1 h2
    | none =>
      cases prompt with
      | none =>
        rw [run_sudo_command_cancelled cache now cmd hcb exec hty] at h1
        exact absurd h1 (by simp)
      | some q =>
        rw [run_sudo_command_prompted cache now cmd hcb exec q hty] at h1 ⊢
        exact exec_sudo_output_err _ _ _ _ _ _ _ _ _ h1 h2

/-- Witness for the amended C7: a failing "udevadm trigger" run shows its
error; the same failing executor under `create_udev_rule` ends with the
success message; a search whose queries all fail shows "no devices". -/
theorem C7_failures_surfaced_except_masked_witness :
    (run_sudo_command cache0 1 "udevadm trigger" none false (some "pw")
      exec_fail0).output =
      some ("Error executing command: " ++ "chmod: permission denied") ∧
    (create_udev_rule cache0 1 (some "pw") exec_fail0).output =
      some "Udev rule created. Please reload rules and trigger udev for changes to take effect." ∧
    (find_octavi_device cache0 1 "pw" ["/dev/hidraw0"]
      (fun _ => Except.error "auth") (fun _ => none) (fun _ => false)).output =
      "No Octavi IFR1 devices found." :=
  C7_failures_surfaced_except_masked cache0 1 "udevadm trigger" none false
    (some "pw") exec_fail0 (full_command "pw" "udevadm trigger")
    "chmod: permission denied" "pw" ["/dev/hidraw0"]
    (fun _ => Except.error "auth") (fun _ => none) (fun _ => false)
    (by decide) (by decide) (fun d _ => ⟨"auth", rfl⟩)

/-- The chmod attempts of `find_octavi_device` are exactly the matched
devices. -/
theorem find_octavi_device_chmod_calls (cache : PasswordCache) (now : Nat)
    (pw : String) (devices : List String)
    (query : String → Except String String)
    (dm : String → Option (String × String)) (chmod_ok : String → Bool) :
    (find_octavi_device cache now pw devices query dm chmod_ok).chmod_calls =
      devices.filter (device_matches query dm) := by
  unfold find_octavi_device
  simp

/-- Result lines of `find_octavi_device` when at least one device matched. -/
theorem find_octavi_device_result_lines (cache : PasswordCache) (now : Nat)
    (pw : String) (devices : List String)
    (query : String → Except String String)
    (dm : String → Option (String × String)) (chmod_ok : String → Bool)
    (hne : (devices.filter (device_matches query dm)).isEmpty = false) :
    (find_octavi_device cache now pw devices query dm chmod_ok).result_lines =
      "Found Octavi IFR1 device(s):\n" ::
        (devices.filter (device_matches query dm)).flatMap (fun d =>
          [d ++ "\n",
           if chmod_ok d then "Applied chmod 0666 to " ++ d ++ "\n"
           else "Failed to apply chmod 0666 to " ++ d ++ "\n"]) := by
  unfold find_octavi_device
  simp [hne]

/-- C8: every matched device receives a chmod attempt, and each device's
"Applied"/"Failed" line is recorded in the result according to its own chmod
outcome, independently of what happens on the other devices. -/
theorem C8_per_device_outcomes (cache : PasswordCache) (now : Nat)
    (pw : String) (devices : List String)
    (query : String → Except String String)
    (dm : String → Option (String × String)) (chmod_ok : String → Bool) :
    (find_octavi_device cache now pw devices query dm chmod_ok).chmod_calls =
      devices.filter (device_matches query dm) ∧
    ∀ d, d ∈ (find_octavi_device cache now pw devices query dm
        chmod_ok).chmod_calls →
      (chmod_ok d = true →
        ("Applied chmod 0666 to " ++ d ++ "\n") ∈
          (find_octavi_device cache now pw devices query dm
            chmod_ok).result_lines) ∧
      (chmod_ok d = false →
        ("Failed to apply chmod 0666 to " ++ d ++ "\n") ∈
          (find_octavi_device cache now pw devices query dm
            chmod_ok).result_lines) := by
  refine ⟨find_octavi_device_chmod_calls cache now pw devices query dm
    chmod_ok, ?_⟩
  intro d hd
  rw [find_octavi_device_chmod_calls] at hd
  have hne : (devices.filter (device_matches query dm)).isEmpty = false := by
    cases hfe : devices.filter (device_matches query dm) with
    | nil =>
      rw [hfe] at hd
      simp at hd
    | cons a as => rfl
  rw [find_octavi_device_result_lines cache now pw devices query dm chmod_ok
    hne]
  constructor
  · intro hc
    refine List.mem_cons_of_mem _ (List.mem_flatMap.mpr ⟨d, hd, ?_⟩)
    simp [hc]
  · intro hc
    refine List.mem_cons_of_mem _ (List.mem_flatMap.mpr ⟨d, hd, ?_⟩)
    simp [hc]

/-- Query collaborator for the C8 witness scenario: every query succeeds. -/
def query3 : String → Except String String := fun _ => Except.ok "info"

/-- DEVPATH extraction for the C8 witness scenario: every device reports the
Octavi vendor/product pair (in lowercase, matched case-insensitively). -/
def dm3 : String → Option (String × String) := fun _ => some ("04d8", "e6d6")

/-- Chmod collaborator for the C8 witness scenario: fails exactly on the
second device. -/
def chmod3 : String → Bool := fun d => !(d == "/dev/hidraw1")

/-- Witness for C8 on the spec's three-device scenario: the second chmod
fails, yet all three devices report an outcome and the first and third
report success. -/
theorem C8_per_device_outcomes_witness :
    ("Applied chmod 0666 to " ++ "/dev/hidraw0" ++ "\n") ∈
      (find_octavi_device cache0 1 "pw"
        ["/dev/hidraw0", "/dev/hidraw1", "/dev/hidraw2"] query3 dm3
        chmod3).result_lines ∧
    ("Failed to apply chmod 0666 to " ++ "/dev/hidraw1" ++ "\n") ∈
      (find_octavi_device cache0 1 "pw"
        ["/dev/hidraw0", "/dev/hidraw1", "/dev/hidraw2"] query3 dm3
        chmod3).result_lines ∧
    ("Applied chmod 0666 to " ++ "/dev/hidraw2" ++ "\n") ∈
      (find_octavi_device cache0 1 "pw"
        ["/dev/hidraw0", "/dev/hidraw1", "/dev/hidraw2"] query3 dm3
        chmod3).result_lines :=
  ⟨((C8_per_device_outcomes cache0 1 "pw"
      ["/dev/hidraw0", "/dev/hidraw1", "/dev/hidraw2"] query3 dm3 chmod3).2
      "/dev/hidraw0" (by decide)).1 (by decide),
   ((C8_per_device_outcomes cache0 1 "pw"
      ["/dev/hidraw0", "/dev/hidraw1", "/dev/hidraw2"] query3 dm3 chmod3).2
      "/dev/hidraw1" (by decide)).2 (by decide),
   ((C8_per_device_outcomes cache0 1 "pw"
      ["/dev/hidraw0", "/dev/hidraw1", "/dev/hidraw2"] query3 dm3 chmod3).2
      "/dev/hidraw2" (by decide)).1 (by decide)⟩

/-- Found devices of `find_octavi_device` are exactly the filtered list. -/
theorem find_octavi_device_found (cache : PasswordCache) (now : Nat)
    (pw : String) (devices : List String)
    (query : String → Except String String)
    (dm : String → Option (String × String)) (chmod_ok : String → Bool) :
    (find_octavi_device cache now pw devices query dm chmod_ok).found_devices =
      devices.filter (device_matches query dm) := by
  unfold find_octavi_device
  simp

/-- Cache state and notifications of `find_octavi_device` when the cache
already yields a truthy password (lines 444-445 then skip the re-cache). -/
theorem find_octavi_device_cache_of_truthy (cache : PasswordCache) (now : Nat)
    (pw : String) (devices : List String)
    (query : String → Except String String)
    (dm : String → Option (String × String)) (chmod_ok : String → Bool)
    (h : py_truthy_str (cache.get_password now).password = true) :
    (find_octavi_device cache now pw devices query dm chmod_ok).cache =
      (cache.get_password now).cache ∧
    (find_octavi_device cache now pw devices query dm chmod_ok).notifications =
      (cache.get_password now).notifications := by
  unfold find_octavi_device
  simp [h]

/-- Branch of `run_find_octavi_device` taken with a truthy cached
password. -/
theorem run_find_of_truthy (cache : PasswordCache) (now now2 : Nat)
    (prompt : Option String) (devices : List String)
    (query : String → Except String String)
    (dm : String → Option (String × String)) (chmod_ok : String → Bool)
    (h : py_truthy_str (cache.get_password now).password = true) :
    run_find_octavi_device cache now now2 prompt devices query dm chmod_ok =
      ⟨false, 0, some ((cache.get_password now).password.getD ""),
       "Preparing to search for Octavi IFR1 devices...",
       some (find_octavi_device (cache.get_password now).cache now2
         ((cache.get_password now).password.getD "") devices query dm
         chmod_ok),
       (find_octavi_device (cache.get_password now).cache now2
         ((cache.get_password now).password.getD "") devices query dm
         chmod_ok).cache,
       (cache.get_password now).notifications ++
         (find_octavi_device (cache.get_password now).cache now2
           ((cache.get_password now).password.getD "") devices query dm
           chmod_ok).notifications⟩ := by
  unfold run_find_octavi_device
  rw [h]
  rfl

/-- C10 (implicit claim): the device-search path invokes sudo directly via
subprocess rather than through `run_sudo_command`; with a valid cached
password, `run_find_octavi_device` opens no dialog and reuses the cached
password, and even when every privileged query fails (as happens when the
cached password is wrong), the credential cache is left exactly as it was:
the wrong password stays cached and is still returned by `get_password`
afterwards, and no device is reported. -/
theorem C10_device_search_never_clears_cache (cache : PasswordCache)
    (now now2 : Nat) (prompt : Option String) (ct : Ciphertext) (t : Nat)
    (p : String) (devices : List String)
    (query : String → Except String String)
    (dm : String → Option (String × String)) (chmod_ok : String → Bool)
    (h1 : cache.cached_password = some ct) (h2 : cache.cache_time = some t)
    (h3 : 0 < t) (h4 : now - t ≤ cache.timeout_minutes * 60)
    (h5 : now2 - t ≤ cache.timeout_minutes * 60)
    (h6 : Fernet.decrypt cache.key ct = some p) (h7 : p ≠ "")
    (hq : ∀ d ∈ devices, ∃ e, query d = Except.error e) :
    (run_find_octavi_device cache now now2 prompt devices query dm
      chmod_ok).prompt_count = 0 ∧
    (run_find_octavi_device cache now now2 prompt devices query dm
      chmod_ok).password_used = some p ∧
    (run_find_octavi_device cache now now2 prompt devices query dm
      chmod_ok).cache = cache ∧
    ((run_find_octavi_device cache now now2 prompt devices query dm
      chmod_ok).cache.get_password now2).password = some p ∧
    Option.map FindResult.found_devices
      (run_find_octavi_device cache now now2 prompt devices query dm
        chmod_ok).find = some [] := by
  have hget1 := get_password_of_valid cache now ct t h1 h2 h3 h4
  have hget2 := get_password_of_valid cache now2 ct t h1 h2 h3 h5
  have hpw1 : (cache.get_password now).password = some p := by
    rw [hget1]
    exact h6
  have hty : py_truthy_str (cache.get_password now).password = true := by
    rw [hpw1]
    exact py_truthy_str_some p h7
  have hty2 : py_truthy_str (cache.get_password now2).password = true := by
    rw [hget2, h6]
    exact py_truthy_str_some p h7
  have hrw := run_find_of_truthy cache now now2 prompt devices query dm
    chmod_ok hty
  have hfc2 : (find_octavi_device cache now2 p devices query dm chmod_ok).cache
      = cache := by
    rw [(find_octavi_device_cache_of_truthy cache now2 p devices query dm
      chmod_ok hty2).1, hget2]
  refine ⟨?_, ?_, ?_, ?_, ?_⟩
  · rw [hrw]
  · rw [hrw, hget1]
    simp [h6]
  · rw [hrw, hget1]
    simp only [h6, Option.getD_some]
    exact hfc2
  · rw [hrw, hget1]
    simp only [h6, Option.getD_some]
    rw [hfc2, hget2]
    exact h6
  · rw [hrw, hget1]
    simp only [h6, Option.getD_some, Option.map_some']
    rw [find_octavi_device_found cache now2 p devices query dm chmod_ok,
      filter_matches_nil devices query dm hq]

/-- Cache holding a wrong password "wrongpw" cached at time 1. -/
def cache_wrong : PasswordCache := (cache0.cache_password "wrongpw" 1).1

/-- Query collaborator where every privileged `udevadm info` call is
rejected (wrong sudo password). -/
def query_auth_fail : String → Except String String :=
  fun _ => Except.error "sudo: 1 incorrect password attempt"

/-- Witness for C10: a wrong password cached at time 1; the search at times
2 and 3 prompts nobody, reuses "wrongpw", every query is rejected, and the
wrong password is still cached and readable afterwards. -/
theorem C10_device_search_never_clears_cache_witness :
    (run_find_octavi_device cache_wrong 2 3 none ["/dev/hidraw0"]
      query_auth_fail (fun _ => none) (fun _ => false)).prompt_count = 0 ∧
    (run_find_octavi_device cache_wrong 2 3 none ["/dev/hidraw0"]
      query_auth_fail (fun _ => none) (fun _ => false)).password_used =
      some "wrongpw" ∧
    (run_find_octavi_device cache_wrong 2 3 none ["/dev/hidraw0"]
      query_auth_fail (fun _ => none) (fun _ => false)).cache = cache_wrong ∧
    ((run_find_octavi_device cache_wrong 2 3 none ["/dev/hidraw0"]
      query_auth_fail (fun _ => none) (fun _ => false)).cache.get_password
      3).password = some "wrongpw" ∧
    Option.map FindResult.found_devices
      (run_find_octavi_device cache_wrong 2 3 none ["/dev/hidraw0"]
        query_auth_fail (fun _ => none) (fun _ => false)).find = some [] :=
  C10_device_search_never_clears_cache cache_wrong 2 3 none ⟨0, "wrongpw"⟩ 1
    "wrongpw" ["/dev/hidraw0"] query_auth_fail (fun _ => none)
    (fun _ => false) (by decide) (by decide) (by decide) (by decide)
    (by decide) (by decide) (by decide)
    (fun d _ => ⟨"sudo: 1 incorrect password attempt", rfl⟩)
